import Mathlib

/-!
Shallow embedding of the three OR-Tools optimization scripts in this
repository (factory planning 2, food manufacture 1, manpower planning).
Decision variables become fields of an assignment structure over ℚ
(integer variables over ℤ); each `model.Add(...)` constraint becomes a
conjunct of a decidable feasibility predicate; `model.Sum` over a Python
iteration becomes a sum over the corresponding list.
-/

/-- `model.Sum(f(x) for x in l)`: sum of `f` over the elements of `l`. -/
def sumOver {α : Type} (l : List α) (f : α → ℚ) : ℚ :=
  (l.map f).sum

/-- An assignment is optimal for a maximization model with feasible set `F`
and objective `f` when it is feasible and no feasible assignment scores higher. -/
def IsOptimalMax {α : Type} (F : α → Prop) (f : α → ℚ) (a : α) : Prop :=
  F a ∧ ∀ b, F b → f b ≤ f a

/-- An assignment is optimal for a minimization model with feasible set `F`
and objective `f` when it is feasible and no feasible assignment scores lower. -/
def IsOptimalMin {α : Type} (F : α → Prop) (f : α → ℚ) (a : α) : Prop :=
  F a ∧ ∀ b, F b → f a ≤ f b

/-- The set of objective values attained at optimal assignments of a
maximization model. -/
def optValuesMax {α : Type} (F : α → Prop) (f : α → ℚ) : Set ℚ :=
  {v | ∃ a, IsOptimalMax F f a ∧ f a = v}

/-- The set of objective values attained at optimal assignments of a
minimization model. -/
def optValuesMin {α : Type} (F : α → Prop) (f : α → ℚ) : Set ℚ :=
  {v | ∃ a, IsOptimalMin F f a ∧ f a = v}

namespace FactoryPlanning

/-- `products = ["Prod1", ..., "Prod7"]` -/
inductive Product : Type
  | prod1 | prod2 | prod3 | prod4 | prod5 | prod6 | prod7
  deriving DecidableEq

/-- `machines = ["grinder", "vertDrill", "horiDrill", "borer", "planer"]` -/
inductive Machine : Type
  | grinder | vertDrill | horiDrill | borer | planer
  deriving DecidableEq

/-- `months = ["Jan", "Feb", "Mar", "Apr", "May", "Jun"]` -/
inductive Month : Type
  | jan | feb | mar | apr | may | jun
  deriving DecidableEq

open Product Machine Month

def productsList : List Product := [prod1, prod2, prod3, prod4, prod5, prod6, prod7]

def machinesList : List Machine := [grinder, vertDrill, horiDrill, borer, planer]

def monthsList : List Month := [jan, feb, mar, apr, may, jun]

/-- `months[1:]` — the months handled by the later-period balance loop. -/
def laterMonths : List Month := monthsList.drop 1

/-- `months[months.index(mth) - 1]`; on `jan` this mirrors Python's
`months[-1] = "Jun"` (never reached by the loop, which runs over `months[1:]`). -/
def prevMonth : Month → Month
  | jan => jun
  | feb => jan
  | mar => feb
  | apr => mar
  | may => apr
  | jun => may

/-- `profit` table. -/
def profit : Product → ℚ
  | prod1 => 10
  | prod2 => 6
  | prod3 => 8
  | prod4 => 4
  | prod5 => 11
  | prod6 => 9
  | prod7 => 3

/-- `time_required`: nested dict; `none` encodes an absent key
(machine not used by the product). -/
def time_required : Machine → Product → Option ℚ
  | grinder, prod1 => some (5/10)
  | grinder, prod2 => some (7/10)
  | grinder, prod5 => some (3/10)
  | grinder, prod6 => some (2/10)
  | grinder, prod7 => some (5/10)
  | vertDrill, prod1 => some (1/10)
  | vertDrill, prod2 => some (2/10)
  | vertDrill, prod4 => some (3/10)
  | vertDrill, prod6 => some (6/10)
  | horiDrill, prod1 => some (2/10)
  | horiDrill, prod3 => some (8/10)
  | horiDrill, prod7 => some (6/10)
  | borer, prod1 => some (5/100)
  | borer, prod2 => some (3/100)
  | borer, prod4 => some (7/100)
  | borer, prod5 => some (1/10)
  | borer, prod7 => some (8/100)
  | planer, prod3 => some (1/100)
  | planer, prod5 => some (5/100)
  | planer, prod7 => some (5/100)
  | _, _ => none

/-- `machines_down`: number of machines that must go down for maintenance. -/
def machines_down : Machine → ℤ
  | grinder => 2
  | vertDrill => 2
  | horiDrill => 3
  | borer => 1
  | planer => 1

/-- `machines_installed`: number of each machine available. -/
def machines_installed : Machine → ℤ
  | grinder => 4
  | vertDrill => 2
  | horiDrill => 3
  | borer => 1
  | planer => 1

/-- `max_sales`: the market-limitation dict, kept as the literal list of
key/value pairs so that completeness of the table is a provable fact. -/
def max_sales_table : List ((Month × Product) × ℚ) :=
  [((jan, prod1), 500), ((jan, prod2), 1000), ((jan, prod3), 300),
   ((jan, prod4), 300), ((jan, prod5), 800), ((jan, prod6), 200),
   ((jan, prod7), 100),
   ((feb, prod1), 600), ((feb, prod2), 500), ((feb, prod3), 200),
   ((feb, prod4), 0), ((feb, prod5), 400), ((feb, prod6), 300),
   ((feb, prod7), 150),
   ((mar, prod1), 300), ((mar, prod2), 600), ((mar, prod3), 0),
   ((mar, prod4), 0), ((mar, prod5), 500), ((mar, prod6), 400),
   ((mar, prod7), 100),
   ((apr, prod1), 200), ((apr, prod2), 300), ((apr, prod3), 400),
   ((apr, prod4), 500), ((apr, prod5), 200), ((apr, prod6), 0),
   ((apr, prod7), 100),
   ((may, prod1), 0), ((may, prod2), 100), ((may, prod3), 500),
   ((may, prod4), 100), ((may, prod5), 1000), ((may, prod6), 300),
   ((may, prod7), 0),
   ((jun, prod1), 500), ((jun, prod2), 500), ((jun, prod3), 100),
   ((jun, prod4), 300), ((jun, prod5), 1100), ((jun, prod6), 500),
   ((jun, prod7), 60)]

/-- `max_sales[(mth, prd)]` as a dictionary lookup: `none` models a KeyError. -/
def maxSalesLookup (m : Month) (p : Product) : Option ℚ :=
  (max_sales_table.find? fun e => decide (e.1 = (m, p))).map (·.2)

/-- The sales cap actually used as `dv_sold`'s upper bound. -/
def maxSales (m : Month) (p : Product) : ℚ :=
  (maxSalesLookup m p).getD 0

def inventory_holding_cost : ℚ := 5/10

def maximum_inventory : ℚ := 100

def inventory_target : ℚ := 50

/-- `hours_per_month = 2 * 8 * 24`. -/
def hours_per_month : ℚ := 2 * 8 * 24

/-- One value per decision variable of the factory model: `dv_manufacture`,
`dv_inventory`, `dv_sold` (continuous) and `dv_repair` (integer). -/
structure Assign : Type where
  manufacture : Month → Product → ℚ
  inventory : Month → Product → ℚ
  sold : Month → Product → ℚ
  repair : Month → Machine → ℤ

/-- All variable bounds and all `model.Add(...)` constraints of
`factory_planning_2_ortools.py`. -/
def Feasible (a : Assign) : Prop :=
  -- declared bounds of dv_manufacture, dv_inventory, dv_sold
  (∀ m ∈ monthsList, ∀ p ∈ productsList,
      0 ≤ a.manufacture m p ∧ a.manufacture m p ≤ 1000000 ∧
      0 ≤ a.inventory m p ∧ a.inventory m p ≤ maximum_inventory ∧
      0 ≤ a.sold m p ∧ a.sold m p ≤ maxSales m p) ∧
  -- declared bounds of dv_repair (IntVar(0, machines_down[mach]))
  (∀ m ∈ monthsList, ∀ mach ∈ machinesList,
      0 ≤ a.repair m mach ∧ a.repair m mach ≤ machines_down mach) ∧
  -- 1. initial balance (Jan)
  (∀ p ∈ productsList,
      a.manufacture jan p = a.sold jan p + a.inventory jan p) ∧
  -- 2. balance for months[1:]
  (∀ m ∈ laterMonths, ∀ p ∈ productsList,
      a.inventory (prevMonth m) p + a.manufacture m p
        = a.sold m p + a.inventory m p) ∧
  -- 3. inventory target at end of June
  (∀ p ∈ productsList, a.inventory jun p = inventory_target) ∧
  -- 4. machine capacity
  (∀ m ∈ monthsList, ∀ mach ∈ machinesList,
      sumOver (productsList.filter fun p => (time_required mach p).isSome)
          (fun p => (time_required mach p).getD 0 * a.manufacture m p)
        ≤ hours_per_month * ((machines_installed mach : ℚ) - (a.repair m mach : ℚ))) ∧
  -- 5. downtime requirement
  (∀ mach ∈ machinesList,
      (monthsList.map fun m => a.repair m mach).sum = machines_down mach)

/-- `obj_func`: sales profit minus inventory holding cost. -/
def objective (a : Assign) : ℚ :=
  sumOver monthsList (fun m => sumOver productsList fun p => profit p * a.sold m p)
    - sumOver monthsList
        (fun m => sumOver productsList fun p => inventory_holding_cost * a.inventory m p)

end FactoryPlanning

namespace FoodManufacture

/-- `oils = ["VEG1", "VEG2", "OIL1", "OIL2", "OIL3"]` -/
inductive Oil : Type
  | veg1 | veg2 | oil1 | oil2 | oil3
  deriving DecidableEq

open Oil FactoryPlanning.Month

/-- The food model reuses the same six-month horizon. -/
abbrev Month := FactoryPlanning.Month

def monthsList : List Month := FactoryPlanning.monthsList

def laterMonths : List Month := monthsList.drop 1

def prevMonth : Month → Month := FactoryPlanning.prevMonth

def oilsList : List Oil := [veg1, veg2, oil1, oil2, oil3]

/-- `cost`: purchase price of each oil in each month. -/
def cost : Month → Oil → ℚ
  | jan, veg1 => 110 | jan, veg2 => 120 | jan, oil1 => 130
  | jan, oil2 => 110 | jan, oil3 => 115
  | feb, veg1 => 130 | feb, veg2 => 130 | feb, oil1 => 110
  | feb, oil2 => 90 | feb, oil3 => 115
  | mar, veg1 => 110 | mar, veg2 => 140 | mar, oil1 => 130
  | mar, oil2 => 100 | mar, oil3 => 95
  | apr, veg1 => 120 | apr, veg2 => 110 | apr, oil1 => 120
  | apr, oil2 => 120 | apr, oil3 => 125
  | may, veg1 => 100 | may, veg2 => 120 | may, oil1 => 150
  | may, oil2 => 110 | may, oil3 => 105
  | jun, veg1 => 90 | jun, veg2 => 100 | jun, oil1 => 140
  | jun, oil2 => 80 | jun, oil3 => 135

/-- `hardness` of each oil. -/
def hardness : Oil → ℚ
  | veg1 => 88/10
  | veg2 => 61/10
  | oil1 => 2
  | oil2 => 42/10
  | oil3 => 5

def price : ℚ := 150

def init_store_inventory : ℚ := 500

def target_store_inventory : ℚ := 500

def veg_upper_cap : ℚ := 200

def oil_upper_cap : ℚ := 250

def min_hardness : ℚ := 3

def max_hardness : ℚ := 6

def inventory_holding_cost : ℚ := 5

def veg_oils : List Oil := [veg1, veg2]

def non_veg_oils : List Oil := [oil1, oil2, oil3]

/-- One value per decision variable of the food model: `dv_prod`,
`dv_oil_buy`, `dv_oil_consume`, `dv_oil_inventory`. -/
structure Assign : Type where
  prod : Month → ℚ
  buy : Month → Oil → ℚ
  consume : Month → Oil → ℚ
  inv : Month → Oil → ℚ

/-- All variable bounds and all `model.Add(...)` constraints of
`food_manufacture_1_ortools.py`. -/
def Feasible (a : Assign) : Prop :=
  -- declared bounds: every variable is NumVar(0, 1000000, _)
  (∀ m ∈ monthsList, 0 ≤ a.prod m ∧ a.prod m ≤ 1000000) ∧
  (∀ m ∈ monthsList, ∀ o ∈ oilsList,
      0 ≤ a.buy m o ∧ a.buy m o ≤ 1000000 ∧
      0 ≤ a.consume m o ∧ a.consume m o ≤ 1000000 ∧
      0 ≤ a.inv m o ∧ a.inv m o ≤ 1000000) ∧
  -- 1. balance constraint for January
  (∀ o ∈ oilsList,
      init_store_inventory + a.buy jan o = a.consume jan o + a.inv jan o) ∧
  -- 2. balance constraint for subsequent months
  (∀ m ∈ laterMonths, ∀ o ∈ oilsList,
      a.inv (prevMonth m) o + a.buy m o = a.consume m o + a.inv m o) ∧
  -- 3. end of horizon inventory target
  (∀ o ∈ oilsList, a.inv jun o = target_store_inventory) ∧
  -- 4. refinement capacity
  (∀ m ∈ monthsList,
      sumOver veg_oils (fun o => a.consume m o) ≤ veg_upper_cap ∧
      sumOver non_veg_oils (fun o => a.consume m o) ≤ oil_upper_cap) ∧
  -- 5. hardness tolerances
  (∀ m ∈ monthsList,
      min_hardness * a.prod m
          ≤ sumOver oilsList (fun o => hardness o * a.consume m o) ∧
      sumOver oilsList (fun o => hardness o * a.consume m o)
          ≤ max_hardness * a.prod m) ∧
  -- 6. consumption equals production
  (∀ m ∈ monthsList, sumOver oilsList (fun o => a.consume m o) = a.prod m)

/-- `obj_func`: revenue minus purchase cost minus holding cost. -/
def objective (a : Assign) : ℚ :=
  sumOver monthsList (fun m => a.prod m * price)
    - sumOver monthsList (fun m => sumOver oilsList fun o => cost m o * a.buy m o)
    - sumOver monthsList
        (fun m => sumOver oilsList fun o => inventory_holding_cost * a.inv m o)

end FoodManufacture

namespace ManpowerPlanning

/-- `years = [1, 2, 3]` -/
inductive Year : Type
  | y1 | y2 | y3
  deriving DecidableEq

/-- `skills = ["s1", "s2", "s3"]` -/
inductive Skill : Type
  | s1 | s2 | s3
  deriving DecidableEq

open Year Skill

def yearsList : List Year := [y1, y2, y3]

def skillsList : List Skill := [s1, s2, s3]

/-- `years[1:]` — the years handled by the later-period balance loop. -/
def laterYears : List Year := yearsList.drop 1

/-- `t - 1` for `t` in `years[1:]` (the `y1` case is never reached). -/
def prevYear : Year → Year
  | y1 => y1
  | y2 => y1
  | y3 => y2

/-- Position of a skill in the list; the source compares skill strings
with `<` / `>`, which agrees with this index order. -/
def skillIdx : Skill → Nat
  | s1 => 0
  | s2 => 1
  | s3 => 2

def current_workforce : Skill → ℚ
  | s1 => 2000
  | s2 => 1500
  | s3 => 1000

def demand : Year → Skill → ℚ
  | y1, s1 => 1000 | y1, s2 => 1400 | y1, s3 => 1000
  | y2, s1 => 500 | y2, s2 => 2000 | y2, s3 => 1500
  | y3, s1 => 0 | y3, s2 => 2500 | y3, s3 => 2000

def new_hire_attrition : Skill → ℚ
  | s1 => 25/100
  | s2 => 20/100
  | s3 => 10/100

def experienced_attrition : Skill → ℚ
  | s1 => 10/100
  | s2 => 5/100
  | s3 => 5/100

def downgrade_skill_attrition : ℚ := 50/100

def max_hiring : Year → Skill → ℚ
  | _, s1 => 500
  | _, s2 => 800
  | _, s3 => 500

def max_overmanning : ℚ := 150

def max_parttime : ℚ := 50

def parttime_cap : ℚ := 50/100

def max_train_unskilled : ℚ := 200

def max_train_semiskilled : ℚ := 25/100

/-- One value per decision variable of the manpower model: `dv_hire`,
`dv_part_time`, `dv_workforce`, `dv_layoff`, `dv_excess`, `dv_train`. -/
structure Assign : Type where
  hire : Year → Skill → ℚ
  part_time : Year → Skill → ℚ
  workforce : Year → Skill → ℚ
  layoff : Year → Skill → ℚ
  excess : Year → Skill → ℚ
  train : Year → Skill → Skill → ℚ

/-- Right-hand side of the workforce balance: the surviving prior stock
`wfPrev` (already attrition-free constants for year 1) plus surviving new
hires and retraining flows, minus layoffs — transcribing constraints 1 and
2 of `manpower_planning_ortools.py`. -/
def balanceRHS (a : Assign) (t : Year) (s : Skill) (wfPrev : ℚ) : ℚ :=
  (1 - experienced_attrition s) * wfPrev
    + (1 - new_hire_attrition s) * a.hire t s
    + sumOver (skillsList.filter fun u => skillIdx u < skillIdx s)
        (fun u => (1 - experienced_attrition s) * a.train t u s - a.train t s u)
    + sumOver (skillsList.filter fun u => skillIdx s < skillIdx u)
        (fun u => (1 - downgrade_skill_attrition) * a.train t u s - a.train t s u)
    - a.layoff t s

/-- All variable bounds and all `model.Add(...)` constraints of
`manpower_planning_ortools.py`. -/
def Feasible (a : Assign) : Prop :=
  -- declared bounds
  (∀ t ∈ yearsList, ∀ s ∈ skillsList,
      0 ≤ a.hire t s ∧ a.hire t s ≤ max_hiring t s ∧
      0 ≤ a.part_time t s ∧ a.part_time t s ≤ max_parttime ∧
      0 ≤ a.workforce t s ∧ a.workforce t s ≤ 1000000 ∧
      0 ≤ a.layoff t s ∧ a.layoff t s ≤ 1000000 ∧
      0 ≤ a.excess t s ∧ a.excess t s ≤ 1000000) ∧
  (∀ t ∈ yearsList, ∀ u ∈ skillsList, ∀ v ∈ skillsList,
      0 ≤ a.train t u v ∧ a.train t u v ≤ 1000000) ∧
  -- 1. initial workforce balance, year == 1
  (∀ s ∈ skillsList,
      a.workforce y1 s = balanceRHS a y1 s (current_workforce s)) ∧
  -- 2. subsequent workforce balance, year > 1
  (∀ t ∈ laterYears, ∀ s ∈ skillsList,
      a.workforce t s = balanceRHS a t s (a.workforce (prevYear t) s)) ∧
  -- 3. unskilled training caps and the forbidden s1 → s3 transition
  (∀ t ∈ yearsList,
      a.train t s1 s2 ≤ max_train_unskilled ∧ a.train t s1 s3 = 0) ∧
  -- 4. semi-skilled training cap
  (∀ t ∈ yearsList,
      a.train t s2 s3 ≤ max_train_semiskilled * a.workforce t s3) ∧
  -- 5. overmanning cap
  (∀ t ∈ yearsList,
      sumOver skillsList (fun s => a.excess t s) ≤ max_overmanning) ∧
  -- 6. demand equation
  (∀ t ∈ yearsList, ∀ s ∈ skillsList,
      a.workforce t s = demand t s + a.excess t s + parttime_cap * a.part_time t s)

/-- `obj_layoffs`: total layoffs over the horizon (the active objective). -/
def objective (a : Assign) : ℚ :=
  sumOver yearsList (fun t => sumOver skillsList fun s => a.layoff t s)

end ManpowerPlanning

namespace Report

/-- Status codes returned by `model.Solve()` (`pywraplp.Solver` result
statuses). -/
inductive SolveStatus : Type
  | optimal | feasible | infeasible | unbounded | abnormal | notSolved
  deriving DecidableEq

/-- The lines printed after the solve call: the status-dependent header
(objective value on `OPTIMAL`, a fixed message otherwise) followed
unconditionally by the problem-size and timing statistics, transcribing the
tail of `food_manufacture_1_ortools.py` (the other scripts are identical). -/
def report (st : SolveStatus) (objVal : ℚ) (nv nc : Nat)
    (wallMs : ℚ) (iters : Nat) : List String :=
  (if st = SolveStatus.optimal then
      ["Solution:", "Objective value = " ++ toString objVal]
    else
      ["The problem does not have an optimal solution."])
    ++ ["", "Problem size:",
        "Number of decision variables = " ++ toString nv,
        "Number of constraints = " ++ toString nc]
    ++ ["", "Advanced usage:",
        "Problem solved in " ++ toString (wallMs / 1000) ++ " seconds",
        "Problem solved in " ++ toString iters ++ " iterations"]

/-- The statistics lines that are printed whatever the status was. -/
def statsLines (nv nc : Nat) (wallMs : ℚ) (iters : Nat) : List String :=
  ["", "Problem size:",
   "Number of decision variables = " ++ toString nv,
   "Number of constraints = " ++ toString nc,
   "", "Advanced usage:",
   "Problem solved in " ++ toString (wallMs / 1000) ++ " seconds",
   "Problem solved in " ++ toString iters ++ " iterations"]

end Report

section Witnesses

open FactoryPlanning FoodManufacture ManpowerPlanning

/-- A concrete feasible point of the factory model: hold 50 units of every
product all six months (meeting the June target), sell nothing, manufacture
the initial 50 in January, and do all maintenance in February. -/
def factoryW : FactoryPlanning.Assign where
  manufacture := fun m _ => if m = FactoryPlanning.Month.jan then 50 else 0
  inventory := fun _ _ => 50
  sold := fun _ _ => 0
  repair := fun m mach => if m = FactoryPlanning.Month.feb then machines_down mach else 0

theorem factoryW_feasible : FactoryPlanning.Feasible factoryW := by
  unfold FactoryPlanning.Feasible
  refine ⟨by decide, by decide, ?_, ?_, by decide, ?_, by decide⟩ <;>
    norm_num +decide [factoryW, FactoryPlanning.monthsList, FactoryPlanning.productsList,
      FactoryPlanning.machinesList, FactoryPlanning.laterMonths,
      List.forall_mem_cons, sumOver, List.filter_cons, List.filter_nil,
      FactoryPlanning.prevMonth, FactoryPlanning.time_required,
      FactoryPlanning.machines_down, FactoryPlanning.machines_installed,
      FactoryPlanning.inventory_target, FactoryPlanning.hours_per_month]

/-- A concrete feasible point of the food model: buy, consume and produce
nothing and carry the initial 500 tons of every oil through to June. -/
def foodW : FoodManufacture.Assign where
  prod := fun _ => 0
  buy := fun _ _ => 0
  consume := fun _ _ => 0
  inv := fun _ _ => 500

theorem foodW_feasible : FoodManufacture.Feasible foodW := by
  unfold FoodManufacture.Feasible
  norm_num +decide [foodW, FoodManufacture.monthsList, FactoryPlanning.monthsList,
    FoodManufacture.oilsList, FoodManufacture.laterMonths, FoodManufacture.veg_oils,
    FoodManufacture.non_veg_oils, List.forall_mem_cons, sumOver,
    FoodManufacture.prevMonth, FactoryPlanning.prevMonth, FoodManufacture.hardness,
    FoodManufacture.init_store_inventory, FoodManufacture.target_store_inventory,
    FoodManufacture.veg_upper_cap, FoodManufacture.oil_upper_cap,
    FoodManufacture.min_hardness, FoodManufacture.max_hardness]

/-- A concrete feasible point of the manpower model: meet demand exactly
(no overmanning, no part-time), retrain 200 unskilled workers each year,
top up semi-skilled and skilled ranks by hiring and by s2 → s3 retraining,
and lay off the surplus unskilled workers. -/
def mpW : ManpowerPlanning.Assign where
  hire := fun t s =>
    match t, s with
    | Year.y1, Skill.s3 => 100
    | Year.y2, Skill.s2 => 13900/19
    | Year.y2, Skill.s3 => 500
    | Year.y3, Skill.s2 => 25725/38
    | Year.y3, Skill.s3 => 500
    | _, _ => 0
  part_time := fun _ _ => 0
  workforce := ManpowerPlanning.demand
  layoff := fun t s =>
    match t, s with
    | Year.y1, Skill.s1 => 600
    | Year.y1, Skill.s2 => 215
    | Year.y1, Skill.s3 => 40
    | Year.y2, Skill.s1 => 200
    | Year.y3, Skill.s1 => 250
    | _, _ => 0
  excess := fun _ _ => 0
  train := fun t u v =>
    match t, u, v with
    | _, Skill.s1, Skill.s2 => 200
    | Year.y2, Skill.s2, Skill.s3 => 2000/19
    | Year.y3, Skill.s2, Skill.s3 => 2500/19
    | _, _, _ => 0

theorem mpW_feasible : ManpowerPlanning.Feasible mpW := by
  unfold ManpowerPlanning.Feasible
  norm_num +decide [mpW, ManpowerPlanning.yearsList, ManpowerPlanning.skillsList,
    ManpowerPlanning.laterYears, List.forall_mem_cons, sumOver,
    ManpowerPlanning.balanceRHS, ManpowerPlanning.prevYear, ManpowerPlanning.skillIdx,
    List.filter_cons, List.filter_nil, ManpowerPlanning.current_workforce,
    ManpowerPlanning.demand, ManpowerPlanning.new_hire_attrition,
    ManpowerPlanning.experienced_attrition, ManpowerPlanning.downgrade_skill_attrition,
    ManpowerPlanning.max_hiring, ManpowerPlanning.max_overmanning,
    ManpowerPlanning.max_parttime, ManpowerPlanning.parttime_cap,
    ManpowerPlanning.max_train_unskilled, ManpowerPlanning.max_train_semiskilled]

end Witnesses

/-- C1: in every model, for every period t>1 and every tracked entity, every
feasible assignment satisfies the balance equation exactly — the prior
period's carried quantity plus period-t inflows minus period-t outflows minus
the quantity carried into period t is 0. -/
theorem claim_C1_balance_conservation
    (fa : FactoryPlanning.Assign) (fo : FoodManufacture.Assign)
    (mp : ManpowerPlanning.Assign)
    (hfa : FactoryPlanning.Feasible fa) (hfo : FoodManufacture.Feasible fo)
    (hmp : ManpowerPlanning.Feasible mp) :
    (∀ m ∈ FactoryPlanning.laterMonths, ∀ p ∈ FactoryPlanning.productsList,
        fa.inventory (FactoryPlanning.prevMonth m) p + fa.manufacture m p
          - (fa.sold m p + fa.inventory m p) = 0) ∧
    (∀ m ∈ FoodManufacture.laterMonths, ∀ o ∈ FoodManufacture.oilsList,
        fo.inv (FoodManufacture.prevMonth m) o + fo.buy m o
          - (fo.consume m o + fo.inv m o) = 0) ∧
    (∀ t ∈ ManpowerPlanning.laterYears, ∀ s ∈ ManpowerPlanning.skillsList,
        ManpowerPlanning.balanceRHS mp t s
            (mp.workforce (ManpowerPlanning.prevYear t) s)
          - mp.workforce t s = 0) := by
  obtain ⟨-, -, -, hbalA, -, -, -⟩ := hfa
  obtain ⟨-, -, -, hbalB, -, -, -, -⟩ := hfo
  obtain ⟨-, -, -, hbalC, -, -, -, -⟩ := hmp
  refine ⟨fun m hm p hp => ?_, fun m hm o ho => ?_, fun t ht s hs => ?_⟩
  · have h := hbalA m hm p hp
    linarith
  · have h := hbalB m hm o ho
    linarith
  · have h := hbalC t ht s hs
    linarith

/-- C1 witness: the February balance of the factory model holds with
difference zero at the concrete feasible point `factoryW`. -/
theorem claim_C1_witness :
    factoryW.inventory (FactoryPlanning.prevMonth FactoryPlanning.Month.feb)
        FactoryPlanning.Product.prod1
      + factoryW.manufacture FactoryPlanning.Month.feb FactoryPlanning.Product.prod1
      - (factoryW.sold FactoryPlanning.Month.feb FactoryPlanning.Product.prod1
          + factoryW.inventory FactoryPlanning.Month.feb FactoryPlanning.Product.prod1)
      = 0 :=
  (claim_C1_balance_conservation factoryW foodW mpW
      factoryW_feasible foodW_feasible mpW_feasible).1
    FactoryPlanning.Month.feb (by decide) FactoryPlanning.Product.prod1 (by decide)

/-- C2: in every model the first period's balance constraint is seeded from a
constant (the factory starts with no stock, the food model with
`init_store_inventory`, the manpower model with `current_workforce`), while
every balance constraint for a period t>1 references the period t−1
variables. -/
theorem claim_C2_first_period_seeding
    (fa : FactoryPlanning.Assign) (fo : FoodManufacture.Assign)
    (mp : ManpowerPlanning.Assign)
    (hfa : FactoryPlanning.Feasible fa) (hfo : FoodManufacture.Feasible fo)
    (hmp : ManpowerPlanning.Feasible mp) :
    (∀ p ∈ FactoryPlanning.productsList,
        fa.manufacture FactoryPlanning.Month.jan p
          = fa.sold FactoryPlanning.Month.jan p
            + fa.inventory FactoryPlanning.Month.jan p) ∧
    (∀ m ∈ FactoryPlanning.laterMonths, ∀ p ∈ FactoryPlanning.productsList,
        fa.inventory (FactoryPlanning.prevMonth m) p + fa.manufacture m p
          = fa.sold m p + fa.inventory m p) ∧
    (∀ o ∈ FoodManufacture.oilsList,
        FoodManufacture.init_store_inventory + fo.buy FactoryPlanning.Month.jan o
          = fo.consume FactoryPlanning.Month.jan o
            + fo.inv FactoryPlanning.Month.jan o) ∧
    (∀ m ∈ FoodManufacture.laterMonths, ∀ o ∈ FoodManufacture.oilsList,
        fo.inv (FoodManufacture.prevMonth m) o + fo.buy m o
          = fo.consume m o + fo.inv m o) ∧
    (∀ s ∈ ManpowerPlanning.skillsList,
        mp.workforce ManpowerPlanning.Year.y1 s
          = ManpowerPlanning.balanceRHS mp ManpowerPlanning.Year.y1 s
              (ManpowerPlanning.current_workforce s)) ∧
    (∀ t ∈ ManpowerPlanning.laterYears, ∀ s ∈ ManpowerPlanning.skillsList,
        mp.workforce t s
          = ManpowerPlanning.balanceRHS mp t s
              (mp.workforce (ManpowerPlanning.prevYear t) s)) := by
  obtain ⟨-, -, hinitA, hbalA, -, -, -⟩ := hfa
  obtain ⟨-, -, hinitB, hbalB, -, -, -, -⟩ := hfo
  obtain ⟨-, -, hinitC, hbalC, -, -, -, -⟩ := hmp
  exact ⟨hinitA, hbalA, hinitB, hbalB, hinitC, hbalC⟩

/-- C2 witness: the seeded January equation of the food model holds at the
concrete feasible point `foodW`. -/
theorem claim_C2_witness :
    FoodManufacture.init_store_inventory
        + foodW.buy FactoryPlanning.Month.jan FoodManufacture.Oil.veg1
      = foodW.consume FactoryPlanning.Month.jan FoodManufacture.Oil.veg1
        + foodW.inv FactoryPlanning.Month.jan FoodManufacture.Oil.veg1 :=
  (claim_C2_first_period_seeding factoryW foodW mpW
      factoryW_feasible foodW_feasible mpW_feasible).2.2.1
    FoodManufacture.Oil.veg1 (by decide)

/-- C3: in every feasible assignment, the end-of-June inventory of every
factory product equals exactly 50 and the end-of-June inventory of every oil
equals exactly 500. -/
theorem claim_C3_terminal_target
    (fa : FactoryPlanning.Assign) (fo : FoodManufacture.Assign)
    (hfa : FactoryPlanning.Feasible fa) (hfo : FoodManufacture.Feasible fo) :
    (∀ p ∈ FactoryPlanning.productsList,
        fa.inventory FactoryPlanning.Month.jun p = 50) ∧
    (∀ o ∈ FoodManufacture.oilsList,
        fo.inv FactoryPlanning.Month.jun o = 500) := by
  obtain ⟨-, -, -, -, htgtA, -, -⟩ := hfa
  obtain ⟨-, -, -, -, htgtB, -, -, -⟩ := hfo
  exact ⟨htgtA, htgtB⟩

/-- C3 witness: the terminal targets hold at the concrete feasible points. -/
theorem claim_C3_witness :
    factoryW.inventory FactoryPlanning.Month.jun FactoryPlanning.Product.prod7 = 50 :=
  (claim_C3_terminal_target factoryW foodW factoryW_feasible foodW_feasible).1
    FactoryPlanning.Product.prod7 (by decide)

/-- C4: in the food model, every feasible assignment satisfies, for every
month, that total consumed oil tonnage equals produced food tonnage exactly
and that the hardness-weighted sum of consumed oils lies between 3 and 6 per
unit of food produced. -/
theorem claim_C4_blend_constraints
    (fo : FoodManufacture.Assign) (hfo : FoodManufacture.Feasible fo) :
    ∀ m ∈ FoodManufacture.monthsList,
      sumOver FoodManufacture.oilsList (fun o => fo.consume m o) = fo.prod m ∧
      3 * fo.prod m
          ≤ sumOver FoodManufacture.oilsList
              (fun o => FoodManufacture.hardness o * fo.consume m o) ∧
      sumOver FoodManufacture.oilsList
          (fun o => FoodManufacture.hardness o * fo.consume m o)
        ≤ 6 * fo.prod m := by
  obtain ⟨-, -, -, -, -, -, hhard, hmass⟩ := hfo
  intro m hm
  exact ⟨hmass m hm, (hhard m hm).1, (hhard m hm).2⟩

/-- C4 witness: the blend constraints hold in June at the concrete feasible
point `foodW`. -/
theorem claim_C4_witness :
    sumOver FoodManufacture.oilsList
        (fun o => foodW.consume FactoryPlanning.Month.jun o)
      = foodW.prod FactoryPlanning.Month.jun :=
  ((claim_C4_blend_constraints foodW foodW_feasible)
    FactoryPlanning.Month.jun (by decide)).1

/-- C5: in the factory model, for every machine type, every feasible
assignment schedules exactly that machine's required downtime across the six
months — an equality against the `machines_down` table, not an upper bound. -/
theorem claim_C5_downtime_exact
    (fa : FactoryPlanning.Assign) (hfa : FactoryPlanning.Feasible fa) :
    ∀ mach ∈ FactoryPlanning.machinesList,
      (FactoryPlanning.monthsList.map fun m => fa.repair m mach).sum
        = FactoryPlanning.machines_down mach := by
  obtain ⟨-, -, -, -, -, -, hdown⟩ := hfa
  exact hdown

/-- C5 witness: the grinder's downtime requirement is met at the concrete
feasible point `factoryW`. -/
theorem claim_C5_witness :
    (FactoryPlanning.monthsList.map
        fun m => factoryW.repair m FactoryPlanning.Machine.grinder).sum
      = FactoryPlanning.machines_down FactoryPlanning.Machine.grinder :=
  claim_C5_downtime_exact factoryW factoryW_feasible
    FactoryPlanning.Machine.grinder (by decide)

/-- C6: in the manpower model, the disallowed transition from unskilled (s1)
directly to most-skilled (s3) carries exactly 0 in every year of every
feasible assignment. -/
theorem claim_C6_forbidden_transition
    (mp : ManpowerPlanning.Assign) (hmp : ManpowerPlanning.Feasible mp) :
    ∀ t ∈ ManpowerPlanning.yearsList,
      mp.train t ManpowerPlanning.Skill.s1 ManpowerPlanning.Skill.s3 = 0 := by
  obtain ⟨-, -, -, -, htrain, -, -, -⟩ := hmp
  intro t ht
  exact (htrain t ht).2

/-- C6 witness: the forbidden transition carries 0 in year 2 at the concrete
feasible point `mpW`. -/
theorem claim_C6_witness :
    mpW.train ManpowerPlanning.Year.y2 ManpowerPlanning.Skill.s1
        ManpowerPlanning.Skill.s3 = 0 :=
  claim_C6_forbidden_transition mpW mpW_feasible
    ManpowerPlanning.Year.y2 (by decide)

/-- C7: the `max_sales` table has an entry for every one of the 6×7
(month, product) combinations, so the bound lookup for `dv_sold` never
faults, and in any feasible assignment every sold quantity lies within its
declared bounds `[0, max_sales]` inclusive — in particular combinations
whose market cap is 0 are forced to sell 0. -/
theorem claim_C7_sold_bounds
    (fa : FactoryPlanning.Assign) (hfa : FactoryPlanning.Feasible fa) :
    (∀ m ∈ FactoryPlanning.monthsList, ∀ p ∈ FactoryPlanning.productsList,
        (FactoryPlanning.maxSalesLookup m p).isSome) ∧
    (∀ m ∈ FactoryPlanning.monthsList, ∀ p ∈ FactoryPlanning.productsList,
        0 ≤ fa.sold m p ∧ fa.sold m p ≤ FactoryPlanning.maxSales m p ∧
        (FactoryPlanning.maxSales m p = 0 → fa.sold m p = 0)) := by
  obtain ⟨hb, -, -, -, -, -, -⟩ := hfa
  refine ⟨by decide, fun m hm p hp => ?_⟩
  obtain ⟨-, -, -, -, h0, h1⟩ := hb m hm p hp
  refine ⟨h0, h1, fun hz => le_antisymm ?_ h0⟩
  rw [hz] at h1
  exact h1

/-- C7 witness: the cap-0 combination (Feb, Prod4) forces zero sales at the
concrete feasible point `factoryW`. -/
theorem claim_C7_witness :
    factoryW.sold FactoryPlanning.Month.feb FactoryPlanning.Product.prod4 = 0 :=
  (((claim_C7_sold_bounds factoryW factoryW_feasible).2
      FactoryPlanning.Month.feb (by decide)
      FactoryPlanning.Product.prod4 (by decide)).2.2) (by decide)

/-- C8: after the solve call, an optimal status prints the objective value,
any other status prints only the fixed message "does not have an optimal
solution", and in either case the problem-size statistics follow. -/
theorem claim_C8_status_report
    (st : Report.SolveStatus) (v : ℚ) (nv nc : Nat) (w : ℚ) (it : Nat) :
    (st = Report.SolveStatus.optimal →
      Report.report st v nv nc w it
        = ["Solution:", "Objective value = " ++ toString v]
            ++ Report.statsLines nv nc w it) ∧
    (st ≠ Report.SolveStatus.optimal →
      Report.report st v nv nc w it
        = ["The problem does not have an optimal solution."]
            ++ Report.statsLines nv nc w it) := by
  constructor <;> intro h <;>
    simp [Report.report, Report.statsLines, h]

/-- C8 witness: an infeasible status prints only the fixed failure message
followed by the statistics lines. -/
theorem claim_C8_witness :
    Report.report Report.SolveStatus.infeasible 0 252 138 42 11
      = ["The problem does not have an optimal solution."]
          ++ Report.statsLines 252 138 42 11 :=
  (claim_C8_status_report Report.SolveStatus.infeasible 0 252 138 42 11).2
    (by decide)

/-- C9: in the manpower model, every feasible assignment satisfies
workforce(t,s) = demand(t,s) + excess(t,s) + 0.5 × part_time(t,s) for every
year and skill; since this is an equality and excess and part-time are
nonnegative, the workforce never falls below demand. -/
theorem claim_C9_demand_equality
    (mp : ManpowerPlanning.Assign) (hmp : ManpowerPlanning.Feasible mp) :
    ∀ t ∈ ManpowerPlanning.yearsList, ∀ s ∈ ManpowerPlanning.skillsList,
      mp.workforce t s
          = ManpowerPlanning.demand t s + mp.excess t s
            + (1/2 : ℚ) * mp.part_time t s ∧
      ManpowerPlanning.demand t s ≤ mp.workforce t s := by
  obtain ⟨hb, -, -, -, -, -, -, hd⟩ := hmp
  intro t ht s hs
  have hcap : ManpowerPlanning.parttime_cap = (1/2 : ℚ) := by
    norm_num [ManpowerPlanning.parttime_cap]
  have h1 := hd t ht s hs
  rw [hcap] at h1
  obtain ⟨-, -, hpt0, -, -, -, -, -, he0, -⟩ := hb t ht s hs
  exact ⟨h1, by linarith⟩

/-- C9 witness: the demand equation holds for year 1, skill s1 at the
concrete feasible point `mpW`. -/
theorem claim_C9_witness :
    mpW.workforce ManpowerPlanning.Year.y1 ManpowerPlanning.Skill.s1
        = ManpowerPlanning.demand ManpowerPlanning.Year.y1 ManpowerPlanning.Skill.s1
          + mpW.excess ManpowerPlanning.Year.y1 ManpowerPlanning.Skill.s1
          + (1/2 : ℚ) * mpW.part_time ManpowerPlanning.Year.y1 ManpowerPlanning.Skill.s1 :=
  ((claim_C9_demand_equality mpW mpW_feasible
      ManpowerPlanning.Year.y1 (by decide) ManpowerPlanning.Skill.s1 (by decide))).1

/-- C10: the formulation of each model is a fixed function of the compiled-in
data tables, so the optimal objective value is uniquely determined: the set
of objective values attained at optimal assignments of each model is a
subsingleton, hence identical across runs regardless of solver internals. -/
theorem claim_C10_objective_reproducibility :
    Set.Subsingleton
        (optValuesMax FactoryPlanning.Feasible FactoryPlanning.objective) ∧
    Set.Subsingleton
        (optValuesMax FoodManufacture.Feasible FoodManufacture.objective) ∧
    Set.Subsingleton
        (optValuesMin ManpowerPlanning.Feasible ManpowerPlanning.objective) := by
  refine ⟨?_, ?_, ?_⟩ <;>
    rintro v ⟨a, ⟨ha, hopt⟩, rfl⟩ w ⟨b, ⟨hb, hoptb⟩, rfl⟩
  · exact le_antisymm (hoptb a ha) (hopt b hb)
  · exact le_antisymm (hoptb a ha) (hopt b hb)
  · exact le_antisymm (hopt b hb) (hoptb a ha)
